import Mathlib

/-!
Shallow embedding of the QtMultimedia audio output plugin for Audacious
(src/qtaudio/qtaudio.cc) and verification of specification claims.

Modelling conventions:
* C `int` / `int64_t` arithmetic is modelled with unbounded `Int`; C integer
  division truncates toward zero, so every division from the source is
  `Int.tdiv`.
* The plugin's mutable globals (`chan`, `rate`, `buffer_size`,
  `buffer_bytes_per_channel`, `frames_written`, `output_instance`,
  `buffer_instance`) form the state `AudioState`.  The `QAudioOutput` /
  `QIODevice` pair is a `Session`; the stream of bytes pushed through the
  write channel since the last `start ()` is its `channel` field, and
  `generation` counts calls to `start ()` (reacquisitions of the channel).
* External collaborators are inputs: the settings store's
  `output_buffer_size` value and the device's `isFormatSupported` answer
  live in `Env`; the device-driven `bytesFree ()` observation is a
  parameter of the operations that read it.
* `error (...)` invocations are counted in `errors`; condition-variable
  broadcasts are counted in `broadcasts`; linear gains handed to the device
  are logged (as the `vol_max` argument) in `device_volume_calls`, with the
  actual float mapping modelled over `ℝ` by `volume_factor`.
* Operations that take the mutex but assign no plugin global
  (`buffer_free`, `period_wait`, `drain`, `output_time`) return the state
  they leave behind, which is the input state; the exit condition of the
  polling loops is modelled separately (`drainReturnsAt`).
-/

namespace QtAudio

/-- Abstract sample-format codes (`FMT_*` from libaudcore).  The first nine
appear in the plugin's descriptor table; the remaining codes exist in the
host API but are absent from the table. -/
inductive AudFormat where
  | FMT_S16_LE
  | FMT_S16_BE
  | FMT_U16_LE
  | FMT_U16_BE
  | FMT_S32_LE
  | FMT_S32_BE
  | FMT_U32_LE
  | FMT_U32_BE
  | FMT_FLOAT
  | FMT_S8
  | FMT_U8
  | FMT_S24_LE
  | FMT_S24_BE
  deriving DecidableEq, BEq, Repr

/-- QAudioFormat sample types used by the descriptor table. -/
inductive SampleType where
  | SignedInt
  | UnSignedInt
  | FloatSample
  deriving DecidableEq, BEq, Repr

/-- QAudioFormat byte orders used by the descriptor table. -/
inductive Endian where
  | LittleEndian
  | BigEndian
  deriving DecidableEq, BEq, Repr

/-- One row of the plugin's format descriptor table. -/
structure FormatDescriptionMap where
  aud_format : AudFormat
  sample_size : Nat
  sample_type : SampleType
  endian : Endian
  deriving DecidableEq, BEq, Repr

/-- The fixed descriptor table `FormatMap` (qtaudio.cc lines 108-118). -/
def FormatMap : List FormatDescriptionMap :=
  [⟨.FMT_S16_LE, 16, .SignedInt, .LittleEndian⟩,
   ⟨.FMT_S16_BE, 16, .SignedInt, .BigEndian⟩,
   ⟨.FMT_U16_LE, 16, .UnSignedInt, .LittleEndian⟩,
   ⟨.FMT_U16_BE, 16, .UnSignedInt, .BigEndian⟩,
   ⟨.FMT_S32_LE, 32, .SignedInt, .LittleEndian⟩,
   ⟨.FMT_S32_BE, 32, .SignedInt, .BigEndian⟩,
   ⟨.FMT_U32_LE, 32, .UnSignedInt, .LittleEndian⟩,
   ⟨.FMT_U32_BE, 32, .UnSignedInt, .BigEndian⟩,
   ⟨.FMT_FLOAT, 32, .FloatSample, .LittleEndian⟩]

/-- The lookup loop of `open_audio` (lines 150-157): first table row whose
`aud_format` equals the requested format. -/
def findFormat (format : AudFormat) : Option FormatDescriptionMap :=
  FormatMap.find? (fun it => it.aud_format == format)

/-- The concrete `QAudioFormat` built in `open_audio` (lines 175-181). -/
structure QAudioFormat where
  sampleRate : Int
  channelCount : Int
  sampleSize : Nat
  codec : String
  byteOrder : Endian
  sampleType : SampleType
  deriving DecidableEq, Repr

/-- External collaborators read during `open_audio`: the settings store's
global `output_buffer_size` (ms) and the default output device's answer to
`isFormatSupported`. -/
structure Env where
  output_buffer_size : Int
  isFormatSupported : QAudioFormat → Bool

/-- An open device stream: `bufferSize` is the device buffer capacity set at
open, `channel` the bytes pushed through the current write channel since the
last `start ()`, `generation` the number of `start ()` calls after the first,
`suspended` the suspend/resume state. -/
structure Session where
  bufferSize : Int
  channel : List Int
  generation : Nat
  suspended : Bool
  deriving DecidableEq, Repr

/-- The plugin's mutable globals plus the event counters described in the
module docstring. -/
structure AudioState where
  vol_left : Int
  vol_right : Int
  chan : Int
  rate : Int
  buffer_size : Int
  buffer_bytes_per_channel : Int
  frames_written : Int
  session : Option Session
  broadcasts : Nat
  errors : Nat
  device_volume_calls : List Int
  deriving DecidableEq, Repr

/-- Derived quantity: bytes per audio frame,
`buffer_bytes_per_channel * chan` (the divisor at lines 235 and 255). -/
def bytes_per_frame (st : AudioState) : Int :=
  st.buffer_bytes_per_channel * st.chan

/-- The decibel range constant `VOLUME_RANGE` (line 35). -/
def VOLUME_RANGE : Nat := 40

/-- `QtAudio::get_volume` (lines 126-129): read both channels from the
settings store. -/
def get_volume (st : AudioState) : Int × Int :=
  (st.vol_left, st.vol_right)

/-- The linear gain handed to `QAudioOutput::setVolume` (line 140), the
float expression idealised over `ℝ`:
`0` when `vol_max = 0`, otherwise `10 ^ (VOLUME_RANGE * (vol_max - 100) / 100 / 20)`. -/
noncomputable def volume_factor (vol_max : Int) : ℝ :=
  if vol_max = 0 then 0
  else (10 : ℝ) ^ (((VOLUME_RANGE : ℝ) * ((vol_max : ℝ) - 100)) / 100 / 20)

/-- The gain reached from a `set_volume (left, right)` call: the factor at
`vol_max = max left right` (line 133). -/
noncomputable def gain (left right : Int) : ℝ :=
  volume_factor (max left right)

/-- `QtAudio::set_volume` (lines 131-144): persist both channels, and when a
device instance exists hand it the gain for `max left right` (logged here by
its `vol_max` argument). -/
def set_volume (st : AudioState) (left right : Int) : AudioState :=
  { st with
    vol_left := left
    vol_right := right
    device_volume_calls :=
      if st.session.isSome then st.device_volume_calls ++ [max left right]
      else st.device_volume_calls }

/-- Bytes per channel sample computed at line 170:
`sample_size / 8 + (sample_size % 16) / 8` (unsigned arithmetic). -/
def bytes_per_channel_of (m : FormatDescriptionMap) : Nat :=
  m.sample_size / 8 + (m.sample_size % 16) / 8

/-- The globals assigned at lines 167-173 once the table lookup succeeded:
`chan`, `rate`, `buffer_bytes_per_channel`, `buffer_size`, `frames_written`.
These assignments happen before the device is consulted. -/
def assignFormatGlobals (env : Env) (st : AudioState) (m : FormatDescriptionMap)
    (rate_ chan_ : Int) : AudioState :=
  { st with
    chan := chan_
    rate := rate_
    buffer_bytes_per_channel := (bytes_per_channel_of m : Int)
    buffer_size := (bytes_per_channel_of m : Int) * chan_ *
      ((env.output_buffer_size * rate_).tdiv 1000)
    frames_written := 0 }

/-- The `QAudioFormat` populated at lines 175-181. -/
def mkQAudioFormat (m : FormatDescriptionMap) (rate_ chan_ : Int) : QAudioFormat :=
  { sampleRate := rate_
    channelCount := chan_
    sampleSize := m.sample_size
    codec := "audio/pcm"
    byteOrder := m.endian
    sampleType := m.sample_type }

/-- Continuation of `open_audio` after a successful table lookup (lines
165-196): assign the globals, consult the device — a rejection reporting one
error — and on acceptance create the stream with the computed buffer size,
start it, and apply the stored volume.  (`assignFormatGlobals` leaves the
error counter and the volume settings untouched, so `st.errors` and
`st.vol_left` / `st.vol_right` below are those values after the
assignments.) -/
def openWithFormat (env : Env) (st : AudioState) (m : FormatDescriptionMap)
    (rate_ chan_ : Int) : Bool × AudioState :=
  if ! env.isFormatSupported (mkQAudioFormat m rate_ chan_) then
    (false, { assignFormatGlobals env st m rate_ chan_ with
              errors := st.errors + 1 })
  else
    (true, set_volume
      { assignFormatGlobals env st m rate_ chan_ with
        session := some
          { bufferSize := (assignFormatGlobals env st m rate_ chan_).buffer_size,
            channel := [], generation := 0, suspended := false } }
      st.vol_left st.vol_right)

/-- `QtAudio::open_audio` (lines 146-197).  Returns the C `bool` result and
the state left behind: lookup failure reports one error and changes nothing
else; otherwise `openWithFormat` runs. -/
def open_audio (env : Env) (st : AudioState) (format : AudFormat)
    (rate_ chan_ : Int) : Bool × AudioState :=
  match findFormat format with
  | none => (false, { st with errors := st.errors + 1 })
  | some m => openWithFormat env st m rate_ chan_

/-- `QtAudio::close_audio` (lines 199-207): stop and release the stream. -/
def close_audio (st : AudioState) : AudioState :=
  { st with session := none }

/-- `QtAudio::buffer_free` (lines 209-217): under the lock, read the device's
`bytesFree ()` (the observation `free`) and return it; no global is
assigned, so the state left behind is the input state. -/
def buffer_free (st : AudioState) (free : Int) : Int × AudioState :=
  (free, st)

/-- `QtAudio::period_wait` (lines 219-227): poll `bytesFree ()` under the
lock until it is nonzero, in 50 ms timed waits; no global is assigned, so
the state left behind is the input state. -/
def period_wait (st : AudioState) : AudioState :=
  st

/-- `QtAudio::write_audio` (lines 229-238): push the bytes through the write
channel and advance `frames_written` by
`len / (buffer_bytes_per_channel * chan)` (C truncating division), where
`len` is the byte count of `data`. -/
def write_audio (st : AudioState) (data : List Int) : AudioState :=
  { st with
    session := st.session.map (fun s => { s with channel := s.channel ++ data })
    frames_written := st.frames_written +
      (data.length : Int).tdiv (st.buffer_bytes_per_channel * st.chan) }

/-- `QtAudio::drain` (lines 240-249): poll under the lock until
`bytesFree () >= bufferSize ()`, in 50 ms timed waits; no global is
assigned, so the state left behind is the input state. -/
def drain (st : AudioState) : AudioState :=
  st

/-- Exit behaviour of the `drain` polling loop (line 245): with `obs k` the
device's `bytesFree ()` at the k-th evaluation of the loop guard, the loop
returns right after the n-th evaluation iff that observation reached
`bufferSize ()` and every earlier one had not. -/
def drainReturnsAt (bufSize : Int) (obs : Nat → Int) (n : Nat) : Bool :=
  decide (bufSize ≤ obs n) &&
    (List.range n).all (fun k => decide (obs k < bufSize))

/-- `QtAudio::output_time` (lines 251-260): under the lock, compute
`(frames_written - (bufferSize () - bytesFree ()) / (buffer_bytes_per_channel * chan)) * 1000 / rate`
with C truncating divisions; `free` is the `bytesFree ()` observation.  No
global is assigned, so the state left behind is the input state. -/
def output_time (st : AudioState) (free : Int) : Int × AudioState :=
  (match st.session with
   | none => 0
   | some s =>
     ((st.frames_written -
        (s.bufferSize - free).tdiv (st.buffer_bytes_per_channel * st.chan))
       * 1000).tdiv st.rate, st)

/-- `QtAudio::pause` (lines 262-274): suspend or resume the stream and
broadcast the wait condition. -/
def pause (st : AudioState) (p : Bool) : AudioState :=
  { st with
    session := st.session.map (fun s => { s with suspended := p })
    broadcasts := st.broadcasts + 1 }

/-- `QtAudio::flush` (lines 276-288): set
`frames_written = time * rate / 1000` (C truncating division on `int64_t`),
reset the stream discarding its buffered bytes, restart it reacquiring the
write channel, and broadcast the wait condition. -/
def flush (st : AudioState) (time : Int) : AudioState :=
  { st with
    frames_written := (time * st.rate).tdiv 1000
    session := st.session.map (fun s =>
      { s with channel := [], generation := s.generation + 1 })
    broadcasts := st.broadcasts + 1 }

/-- The specification's clock formula (spec section 4.3):
`elapsed_frames = frames_written - (buffer_capacity_bytes - bytes_free) / bytes_per_frame`,
result `elapsed_frames * 1000 / rate`, both divisions truncating. -/
def spec_output_time (fw cap free bpf rate_ : Int) : Int :=
  ((fw - (cap - free).tdiv bpf) * 1000).tdiv rate_

/-- The capacity formula claimed by C1:
`bytes_per_frame * channel_count * (configured_output_buffer_ms * rate / 1000)`. -/
def claim_capacity (bpf chans cfg_ms rate_ : Int) : Int :=
  bpf * chans * ((cfg_ms * rate_).tdiv 1000)

/-- The specification's volume mapping (spec section 3):
`0` if `max left right = 0`, else `10 ^ (40 * (max - 100) / 100 / 20)`. -/
noncomputable def spec_gain (left right : Int) : ℝ :=
  if max left right = 0 then 0
  else (10 : ℝ) ^ ((40 * ((max left right : Int) : ℝ) - 40 * 100) / 100 / 20)

/-- A closed plugin state (defaults loaded, no session open). -/
def st0 : AudioState :=
  { vol_left := 100, vol_right := 100, chan := 0, rate := 0,
    buffer_size := 0, buffer_bytes_per_channel := 0, frames_written := 0,
    session := none, broadcasts := 0, errors := 0, device_volume_calls := [] }

/-- A closed state with a leftover `frames_written` from an earlier session. -/
def st7 : AudioState :=
  { st0 with frames_written := 7 }

/-- Environment: 500 ms configured output buffer, device accepting every
format. -/
def env500 : Env :=
  { output_buffer_size := 500, isFormatSupported := fun _ => true }

/-- Environment: 500 ms configured output buffer, device rejecting every
format. -/
def envReject : Env :=
  { output_buffer_size := 500, isFormatSupported := fun _ => false }

/-- The state after a successful stereo 16-bit 44100 Hz open at 500 ms. -/
def stOpen : AudioState :=
  (open_audio env500 st0 .FMT_S16_LE 44100 2).2

/-- Unfolding lemma: a failed table lookup makes `open_audio` report one
error and return failure with no other change. -/
theorem open_audio_lookup_none (env : Env) (st : AudioState) (format : AudFormat)
    (rate_ chan_ : Int) (h : findFormat format = none) :
    open_audio env st format rate_ chan_ =
      (false, { st with errors := st.errors + 1 }) := by
  unfold open_audio
  rw [h]

/-- Unfolding lemma: a successful table lookup makes `open_audio` continue
as `openWithFormat` on the found descriptor. -/
theorem open_audio_lookup_some (env : Env) (st : AudioState) (format : AudFormat)
    (m : FormatDescriptionMap) (rate_ chan_ : Int) (h : findFormat format = some m) :
    open_audio env st format rate_ chan_ = openWithFormat env st m rate_ chan_ := by
  unfold open_audio
  rw [h]

/-- C2: opening with 16-bit signed little-endian samples, 44100 Hz, 2
channels and a 500 ms configured output buffer succeeds and computes a
device buffer capacity of 2 × 2 × (500 × 44100 / 1000) = 88200 bytes. -/
theorem C2_concrete_capacity :
    (open_audio env500 st0 .FMT_S16_LE 44100 2).1 = true ∧
    (open_audio env500 st0 .FMT_S16_LE 44100 2).2.buffer_size =
      2 * 2 * (((500 : Int) * 44100).tdiv 1000) ∧
    (open_audio env500 st0 .FMT_S16_LE 44100 2).2.buffer_size = 88200 := by
  decide

/-- C1 fails as stated: for the successful 16-bit stereo open at 44100 Hz
with a 500 ms buffer, the code computes 88200 bytes, but
bytes_per_frame × channel_count × (ms × rate / 1000) = 4 × 2 × 22050 =
176400 — the claimed formula multiplies by the channel count twice while
the code multiplies by it once. -/
theorem C1_counterexample :
    (open_audio env500 st0 .FMT_S16_LE 44100 2).1 = true ∧
    bytes_per_frame (open_audio env500 st0 .FMT_S16_LE 44100 2).2 = 4 ∧
    claim_capacity
      (bytes_per_frame (open_audio env500 st0 .FMT_S16_LE 44100 2).2)
      2 500 44100 = 176400 ∧
    (open_audio env500 st0 .FMT_S16_LE 44100 2).2.buffer_size ≠
      claim_capacity
        (bytes_per_frame (open_audio env500 st0 .FMT_S16_LE 44100 2).2)
        2 500 44100 := by
  decide

/-- C1 (amended): for every successful open(format, rate, channels), the
computed device buffer capacity equals
bytes_per_channel_sample × channel_count × (configured_output_buffer_ms × rate / 1000),
that is bytes_per_frame × (configured_output_buffer_ms × rate / 1000) — the
channel count enters the capacity exactly once, through bytes_per_frame. -/
theorem C1_capacity_amended (env : Env) (st : AudioState) (format : AudFormat)
    (m : FormatDescriptionMap) (rate_ chan_ : Int)
    (hm : findFormat format = some m)
    (_hok : (open_audio env st format rate_ chan_).1 = true) :
    (open_audio env st format rate_ chan_).2.buffer_size =
      (bytes_per_channel_of m : Int) * chan_ *
        ((env.output_buffer_size * rate_).tdiv 1000) ∧
    (open_audio env st format rate_ chan_).2.buffer_size =
      bytes_per_frame (open_audio env st format rate_ chan_).2 *
        ((env.output_buffer_size * rate_).tdiv 1000) := by
  rw [open_audio_lookup_some env st format m rate_ chan_ hm]
  unfold openWithFormat
  constructor
  · split
    · simp [assignFormatGlobals]
    · simp [set_volume, assignFormatGlobals]
  · split
    · simp [assignFormatGlobals, bytes_per_frame]
    · simp [set_volume, assignFormatGlobals, bytes_per_frame]

/-- Witness for C1 (amended) at the concrete stereo 16-bit scenario. -/
theorem C1_capacity_amended_witness :
    (open_audio env500 st0 .FMT_S16_LE 44100 2).2.buffer_size =
      (bytes_per_channel_of ⟨.FMT_S16_LE, 16, .SignedInt, .LittleEndian⟩ : Int) * 2 *
        ((env500.output_buffer_size * 44100).tdiv 1000) ∧
    (open_audio env500 st0 .FMT_S16_LE 44100 2).2.buffer_size =
      bytes_per_frame (open_audio env500 st0 .FMT_S16_LE 44100 2).2 *
        ((env500.output_buffer_size * 44100).tdiv 1000) :=
  C1_capacity_amended env500 st0 .FMT_S16_LE
    ⟨.FMT_S16_LE, 16, .SignedInt, .LittleEndian⟩ 44100 2
    (by decide) (by decide)

/-- C3: for an open session whose device buffer size is the computed
capacity, output_time returns
(frames_written − (buffer_capacity_bytes − bytes_free) / bytes_per_frame) × 1000 / rate
with both divisions truncating, as a function of a single state snapshot
(the mutex-protected read is modelled by evaluating one state). -/
theorem C3_output_time_spec (st : AudioState) (s : Session) (free : Int)
    (hs : st.session = some s) (hcap : s.bufferSize = st.buffer_size) :
    (output_time st free).1 =
      spec_output_time st.frames_written st.buffer_size free
        (bytes_per_frame st) st.rate ∧
    (output_time st free).2 = st := by
  simp [output_time, hs, hcap, spec_output_time, bytes_per_frame]

/-- Witness for C3 at the freshly opened stereo session with the buffer
half full. -/
theorem C3_output_time_spec_witness :
    (output_time stOpen 44100).1 =
      spec_output_time stOpen.frames_written stOpen.buffer_size 44100
        (bytes_per_frame stOpen) stOpen.rate ∧
    (output_time stOpen 44100).2 = stOpen :=
  C3_output_time_spec stOpen ⟨88200, [], 0, false⟩ 44100 (by decide) (by decide)

/-- C4: for an open session, flush(T) sets frames_written to
T × rate / 1000 (truncating), resets the stream discarding its buffered
bytes, restarts it reacquiring the write channel, and broadcasts the wait
condition. -/
theorem C4_flush_spec (st : AudioState) (s : Session) (t : Int)
    (hs : st.session = some s) :
    (flush st t).frames_written = (t * st.rate).tdiv 1000 ∧
    (flush st t).session =
      some { s with channel := [], generation := s.generation + 1 } ∧
    (flush st t).broadcasts = st.broadcasts + 1 := by
  simp [flush, hs]

/-- Witness for C4: flushing the open stereo session to 2500 ms. -/
theorem C4_flush_spec_witness :
    (flush stOpen 2500).frames_written = ((2500 : Int) * stOpen.rate).tdiv 1000 ∧
    (flush stOpen 2500).session =
      some { (⟨88200, [], 0, false⟩ : Session) with channel := [], generation := 0 + 1 } ∧
    (flush stOpen 2500).broadcasts = stOpen.broadcasts + 1 :=
  C4_flush_spec stOpen ⟨88200, [], 0, false⟩ 2500 (by decide)

/-- C5: for an open session, write(data, len) appends the bytes to the
write channel and advances frames_written by exactly len / bytes_per_frame
(truncating); it has no precondition on frame alignment, and every session
field other than frames_written and the channel contents is unchanged —
volumes, channel count, rate, buffer sizes, broadcast and error counters. -/
theorem C5_write_spec (st : AudioState) (s : Session) (data : List Int)
    (hs : st.session = some s) :
    (write_audio st data).session = some { s with channel := s.channel ++ data } ∧
    (write_audio st data).frames_written =
      st.frames_written + (data.length : Int).tdiv (bytes_per_frame st) ∧
    (write_audio st data).vol_left = st.vol_left ∧
    (write_audio st data).vol_right = st.vol_right ∧
    (write_audio st data).chan = st.chan ∧
    (write_audio st data).rate = st.rate ∧
    (write_audio st data).buffer_size = st.buffer_size ∧
    (write_audio st data).buffer_bytes_per_channel = st.buffer_bytes_per_channel ∧
    (write_audio st data).broadcasts = st.broadcasts ∧
    (write_audio st data).errors = st.errors ∧
    (write_audio st data).device_volume_calls = st.device_volume_calls := by
  simp [write_audio, hs, bytes_per_frame]

/-- Witness for C5: writing one misaligned 5-byte chunk to the open stereo
session (no alignment validation: the write is accepted). -/
theorem C5_write_spec_witness :
    (write_audio stOpen [1, 2, 3, 4, 5]).session =
      some { (⟨88200, [], 0, false⟩ : Session) with
             channel := ([] : List Int) ++ [1, 2, 3, 4, 5] } ∧
    (write_audio stOpen [1, 2, 3, 4, 5]).frames_written =
      stOpen.frames_written +
        (([1, 2, 3, 4, 5] : List Int).length : Int).tdiv (bytes_per_frame stOpen) ∧
    (write_audio stOpen [1, 2, 3, 4, 5]).vol_left = stOpen.vol_left ∧
    (write_audio stOpen [1, 2, 3, 4, 5]).vol_right = stOpen.vol_right ∧
    (write_audio stOpen [1, 2, 3, 4, 5]).chan = stOpen.chan ∧
    (write_audio stOpen [1, 2, 3, 4, 5]).rate = stOpen.rate ∧
    (write_audio stOpen [1, 2, 3, 4, 5]).buffer_size = stOpen.buffer_size ∧
    (write_audio stOpen [1, 2, 3, 4, 5]).buffer_bytes_per_channel =
      stOpen.buffer_bytes_per_channel ∧
    (write_audio stOpen [1, 2, 3, 4, 5]).broadcasts = stOpen.broadcasts ∧
    (write_audio stOpen [1, 2, 3, 4, 5]).errors = stOpen.errors ∧
    (write_audio stOpen [1, 2, 3, 4, 5]).device_volume_calls =
      stOpen.device_volume_calls :=
  C5_write_spec stOpen ⟨88200, [], 0, false⟩ [1, 2, 3, 4, 5] (by decide)

/-- C6: frames_written never decreases except at an explicit flush, which
sets it to target × rate / 1000: a write of non-negative length (with the
session's positive bytes-per-frame) only increases or preserves it, and
pause, buffer_free, period_wait, drain and output_time leave it — indeed
the whole state they leave behind — unchanged. -/
theorem C6_frames_monotone (st : AudioState) (data : List Int) (p : Bool)
    (t free : Int) (hbpf : 0 < bytes_per_frame st) :
    st.frames_written ≤ (write_audio st data).frames_written ∧
    (pause st p).frames_written = st.frames_written ∧
    (buffer_free st free).2 = st ∧
    (period_wait st) = st ∧
    (drain st) = st ∧
    (output_time st free).2 = st ∧
    (flush st t).frames_written = (t * st.rate).tdiv 1000 := by
  refine ⟨?_, by simp [pause], rfl, rfl, rfl, rfl, by simp [flush]⟩
  have hlen : (0 : Int) ≤ (data.length : Int) := Int.ofNat_nonneg _
  have := Int.tdiv_nonneg hlen (le_of_lt (by simpa [bytes_per_frame] using hbpf))
  simp only [write_audio]
  omega

/-- Witness for C6 at the open stereo session. -/
theorem C6_frames_monotone_witness :
    stOpen.frames_written ≤ (write_audio stOpen [1, 2, 3, 4]).frames_written ∧
    (pause stOpen true).frames_written = stOpen.frames_written ∧
    (buffer_free stOpen 88200).2 = stOpen ∧
    (period_wait stOpen) = stOpen ∧
    (drain stOpen) = stOpen ∧
    (output_time stOpen 88200).2 = stOpen ∧
    (flush stOpen 0).frames_written = ((0 : Int) * stOpen.rate).tdiv 1000 :=
  C6_frames_monotone stOpen [1, 2, 3, 4] true 0 88200 (by decide)

/-- C7 fails as stated: with a device that rejects the format, open on a
state with frames_written = 7 returns failure and creates no session, yet
the session state has been modified — frames_written was reset to 0 (and
chan, rate and the buffer sizes were overwritten) before the device was
consulted. -/
theorem C7_counterexample :
    (open_audio envReject st7 .FMT_S16_LE 44100 2).1 = false ∧
    st7.frames_written = 7 ∧
    (open_audio envReject st7 .FMT_S16_LE 44100 2).2.frames_written = 0 ∧
    (open_audio envReject st7 .FMT_S16_LE 44100 2).2 ≠
      { st7 with errors := st7.errors + 1 } := by
  decide

/-- C7 (amended): every failed open — unsupported format code or device
rejection — reports the error exactly once, returns failure, and allocates
no device stream (the session handle is unchanged); on the
unsupported-format path no other state is modified at all, but on the
device-rejection path chan, rate, the buffer sizes and frames_written have
already been overwritten before the rejection. -/
theorem C7_open_failure_amended (env : Env) (st : AudioState)
    (format : AudFormat) (rate_ chan_ : Int)
    (hfail : (open_audio env st format rate_ chan_).1 = false) :
    (open_audio env st format rate_ chan_).2.session = st.session ∧
    (open_audio env st format rate_ chan_).2.errors = st.errors + 1 ∧
    (findFormat format = none →
      (open_audio env st format rate_ chan_).2 = { st with errors := st.errors + 1 }) ∧
    (∀ m, findFormat format = some m →
      (open_audio env st format rate_ chan_).2 =
        { assignFormatGlobals env st m rate_ chan_ with errors := st.errors + 1 }) := by
  cases hm : findFormat format with
  | none =>
    rw [open_audio_lookup_none env st format rate_ chan_ hm]
    exact ⟨rfl, rfl, fun _ => rfl, fun m' hm' => Option.noConfusion hm'⟩
  | some m =>
    rw [open_audio_lookup_some env st format m rate_ chan_ hm] at hfail ⊢
    unfold openWithFormat at hfail
    cases hsup : env.isFormatSupported (mkQAudioFormat m rate_ chan_) with
    | false =>
      have hred : openWithFormat env st m rate_ chan_ =
          (false, { assignFormatGlobals env st m rate_ chan_ with
                    errors := st.errors + 1 }) := by
        unfold openWithFormat
        rw [hsup]
        exact rfl
      rw [hred]
      refine ⟨rfl, rfl, fun h => Option.noConfusion h, fun m' hm' => ?_⟩
      cases hm'
      rfl
    | true =>
      rw [hsup] at hfail
      simp at hfail

/-- Witness for C7 (amended): an unsupported format code (8-bit signed). -/
theorem C7_open_failure_amended_witness :
    (open_audio env500 st7 .FMT_S8 44100 2).2.session = st7.session ∧
    (open_audio env500 st7 .FMT_S8 44100 2).2.errors = st7.errors + 1 ∧
    (findFormat .FMT_S8 = none →
      (open_audio env500 st7 .FMT_S8 44100 2).2 = { st7 with errors := st7.errors + 1 }) ∧
    (∀ m, findFormat .FMT_S8 = some m →
      (open_audio env500 st7 .FMT_S8 44100 2).2 =
        { assignFormatGlobals env500 st7 m 44100 2 with errors := st7.errors + 1 }) :=
  C7_open_failure_amended env500 st7 .FMT_S8 44100 2 (by decide)

/-- C8: the gain reached by set_volume(l, r) is 0 when max l r = 0 and
otherwise 10 ^ (40 × (max l r − 100) / 100 / 20); in particular
set_volume(100, 100) yields unity gain and set_volume(0, 0) yields zero
gain. -/
theorem C8_volume_mapping :
    (∀ left right : Int, gain left right = spec_gain left right) ∧
    gain 100 100 = 1 ∧
    gain 0 0 = 0 := by
  refine ⟨fun left right => ?_, ?_, ?_⟩
  · unfold gain volume_factor spec_gain VOLUME_RANGE
    split
    · rfl
    · norm_num [mul_sub]
  · unfold gain volume_factor VOLUME_RANGE
    norm_num
  · unfold gain volume_factor
    norm_num

/-- C9: the drain loop returns only when the observed free byte count has
reached the device buffer size; since the device never reports more free
bytes than its buffer holds, on return the headroom equals the full buffer
capacity, and at every earlier poll (where drain was still blocked) the
headroom was strictly below it. -/
theorem C9_drain_headroom (bufSize : Int) (obs : Nat → Int) (n : Nat)
    (hret : drainReturnsAt bufSize obs n = true)
    (hdev : obs n ≤ bufSize) :
    obs n = bufSize ∧ ∀ k < n, obs k < bufSize := by
  unfold drainReturnsAt at hret
  rw [Bool.and_eq_true] at hret
  obtain ⟨h1, h2⟩ := hret
  refine ⟨le_antisymm hdev (of_decide_eq_true h1), fun k hk => ?_⟩
  have := List.all_eq_true.mp h2 k (List.mem_range.mpr hk)
  exact of_decide_eq_true this

/-- Witness for C9: a drain that returns on its third poll of an emptying
88200-byte buffer. -/
theorem C9_drain_headroom_witness :
    (fun k => if k < 2 then (44100 : Int) else 88200) 2 = 88200 ∧
    ∀ k < 2, (fun k => if k < 2 then (44100 : Int) else 88200) k < 88200 :=
  C9_drain_headroom 88200 (fun k => if k < 2 then (44100 : Int) else 88200) 2
    (by decide) (by decide)

/-- C10: after set_volume(l, r), get_volume returns exactly (l, r) through
the settings collaborator, whether or not a session is open; the error
counter is untouched (set_volume cannot fail), and a device call is made
only when a session is open. -/
theorem C10_volume_roundtrip (st : AudioState) (left right : Int) :
    get_volume (set_volume st left right) = (left, right) ∧
    (set_volume st left right).errors = st.errors ∧
    (set_volume st left right).device_volume_calls =
      (if st.session.isSome then st.device_volume_calls ++ [max left right]
       else st.device_volume_calls) := by
  simp [get_volume, set_volume]

/-- Witness for C10 at a closed state: the volumes round-trip and no device
call is logged. -/
theorem C10_volume_roundtrip_witness :
    get_volume (set_volume st0 30 40) = (30, 40) ∧
    (set_volume st0 30 40).errors = st0.errors ∧
    (set_volume st0 30 40).device_volume_calls =
      (if st0.session.isSome then st0.device_volume_calls ++ [max 30 40]
       else st0.device_volume_calls) :=
  C10_volume_roundtrip st0 30 40

end QtAudio

